import Mathlib

/-!
Verification of the inference pipeline controller of the
codingchallenge_qa_service repository (routers/infer.py).

The downstream services (sensitive-content detection, paraphrase store,
prefiltering search, QA model inference) are modelled as oracles: functions
returning either a value or an error, collected in a `Services` record.
The controller `infer` is a direct shallow embedding of the `infer` route
handler; raised `HTTPException`s become `Except` errors carrying the same
status code and detail string, and early-return responses become the
`InferOutcome` sum.  Alongside the outcome, `infer` returns the list of
pipeline stages whose downstream service was actually invoked, so that
claims of the form "retrieval is never called" are statable.
-/

namespace CodingChallengeQA

/-- Modelled from the spec: the request language enum of qa_models
(section 6 of the design: EN, DE); only equality with EN is consulted by
the code under verification. -/
inductive Language where
  | EN
  | DE
  deriving DecidableEq, Repr

instance : BEq Language := instBEqOfDecidableEq

/-- Verdict record returned by the sensitive-content-detection service:
a dict with keys "sensitivity" and "model_name". -/
structure SCDResponse where
  sensitivity : String
  model_name : String
  deriving DecidableEq, Repr

/-- Request sent to the paraphrase service (paraphrase_models). -/
structure ParaphraseServiceRequest where
  question_content_str : String
  course_id : String
  deriving DecidableEq, Repr

/-- Match returned by the paraphrase service: carries the gold-standard
answer text. -/
structure ParaphraseServiceResponse where
  gs_answer_content_str : String
  deriving DecidableEq, Repr

/-- Model metadata inside an inference response. -/
structure ModelContext where
  model_name : String
  deriving DecidableEq, Repr

/-- Result dict of the QA inference service: an answer plus model context. -/
structure InferenceServiceResponse where
  answer : String
  model_context : ModelContext
  deriving DecidableEq, Repr

/-- Document returned by the prefiltering (ElasticSearch) service; only
doc_id is inspected by the controller, for trace recording. -/
structure PrefilteredDoc where
  doc_id : String
  deriving DecidableEq, Repr

/-- The user field of the request body; only the id is used. -/
structure User where
  id : String
  deriving DecidableEq, Repr

/-- The request body of POST /infer (InferRequest), restricted to the
fields the controller reads for control flow and service calls. -/
structure InferRequest where
  query : String
  course_id : String
  user : User
  language : Language
  deriving DecidableEq, Repr

/-- The downstream service oracles reachable through
request.app.state.services.  Each is a function of exactly the arguments
the source passes; `Except String` models a raised exception carrying a
message. -/
structure Services where
  sensitive_content_detection_service : String → String → Except String SCDResponse
  paraphrase_service : ParaphraseServiceRequest → Except String (Option ParaphraseServiceResponse)
  prefiltering_service : String → Language → List String → Except String (Option PrefilteredDoc)
  infer_service : String → PrefilteredDoc → String → Language → Except String InferenceServiceResponse

/-- A fastapi HTTPException: status code plus detail string. -/
structure HTTPException where
  status_code : Nat
  detail : String
  deriving DecidableEq, Repr

/-- The terminal HTTP-level outcome of one request: an empty-body
Response(status_code), an HTTPException rendered as status plus detail, or
a 200 InferResponse body. -/
structure InferResponse where
  answer : String
  question : String
  answer_validity : String
  transaction_id : String
  is_gs_answer : Bool
  question_uuid : String
  deriving DecidableEq, Repr

inductive InferOutcome where
  | emptyResponse (status_code : Nat)
  | errorResponse (status_code : Nat) (detail : String)
  | answerResponse (body : InferResponse)
  deriving DecidableEq, Repr

/-- HTTP status of an outcome (an InferResponse body is returned with 200). -/
def statusOf : InferOutcome → Nat
  | .emptyResponse c => c
  | .errorResponse c _ => c
  | .answerResponse _ => 200

/-- The pipeline stages whose downstream service may be invoked. -/
inductive Stage where
  | sensitivity_question
  | paraphrase
  | retrieval
  | inference
  | sensitivity_answer
  deriving DecidableEq, Repr

/-- Embedding of the Python str.lower method, as character-wise lowering
(ASCII case folding; the sentinel strings compared by the code are all
ASCII). -/
def pyLower (s : String) : String :=
  ⟨s.data.map Char.toLower⟩

/-- Embedding of the Python str.strip method: remove leading and trailing
whitespace characters. -/
def pyStrip (s : String) : String :=
  ⟨((s.data.dropWhile Char.isWhitespace).reverse.dropWhile Char.isWhitespace).reverse⟩

/-- Embedding of _check_answer_validity (infer.py lines 30-36). -/
def _check_answer_validity (answer : String) (language : Language) : Bool :=
  let unknown_response : List String :=
    if language == Language.EN then ["unknown", "unknown."] else ["unbekannt", "unbekannt."]
  if answer == "" then
    false
  else if unknown_response.contains (pyLower answer) then
    false
  else
    true

/-- Embedding of _clean_question (strip surrounding whitespace). -/
def _clean_question (question : String) : String :=
  pyStrip question

/-- Embedding of _clean_answer (strip surrounding whitespace). -/
def _clean_answer (answer : String) : String :=
  pyStrip answer

/-- Embedding of _run_sensitive_content_detection: a service exception is
turned into HTTPException(500, "Sensitive Content Detection Exception."). -/
def _run_sensitive_content_detection (s : Services) (query : String) (user_id : String) :
    Except HTTPException SCDResponse :=
  match s.sensitive_content_detection_service query user_id with
  | .error _ => .error { status_code := 500, detail := "Sensitive Content Detection Exception." }
  | .ok scd_response => .ok scd_response

/-- Embedding of _question_has_sensitive_content: sensitive iff the
verdict string differs from "SAFE". -/
def _question_has_sensitive_content (s : Services) (user_id : String) (question : String) :
    Except HTTPException Bool :=
  match _run_sensitive_content_detection s question user_id with
  | .error e => .error e
  | .ok scd_response => .ok (scd_response.sensitivity != "SAFE")

/-- Embedding of _answer_has_sensitive_content: sensitive iff the verdict
string differs from "SAFE". -/
def _answer_has_sensitive_content (s : Services) (user_id : String) (answer : String) :
    Except HTTPException Bool :=
  match _run_sensitive_content_detection s answer user_id with
  | .error e => .error e
  | .ok scd_response => .ok (scd_response.sensitivity != "SAFE")

/-- Embedding of _get_prefiltered_documents_from_elasticsearch: a service
exception becomes HTTPException(412, ...); an empty result is returned
as-is. -/
def _get_prefiltered_documents_from_elasticsearch (s : Services) (course_id : String)
    (question : String) (language : Language) : Except HTTPException (Option PrefilteredDoc) :=
  match s.prefiltering_service question language [course_id] with
  | .error _ =>
      .error { status_code := 412, detail := "Failed to fetch prefiltered document from ElasticSearch." }
  | .ok prefiltered_doc => .ok prefiltered_doc

/-- Embedding of _get_answer_from_paraphrase: any service exception is
swallowed and treated as no match (fail-open). -/
def _get_answer_from_paraphrase (s : Services) (course_id : String) (cleaned_question : String) :
    Option ParaphraseServiceResponse :=
  match s.paraphrase_service { question_content_str := cleaned_question, course_id := course_id } with
  | .error _ => none
  | .ok answer_from_paraphrase => answer_from_paraphrase

/-- Embedding of _get_model_inference_result: a service exception becomes
HTTPException(400, "QAService Exception"). -/
def _get_model_inference_result (s : Services) (user_id : String) (question : String)
    (doc : PrefilteredDoc) (language : Language) : Except HTTPException InferenceServiceResponse :=
  match s.infer_service question doc user_id language with
  | .error _ => .error { status_code := 400, detail := "QAService Exception" }
  | .ok inference_response => .ok inference_response

/-- Embedding of the infer route handler (infer.py lines 203-272).  The
asyncio.gather of the question-sensitivity check and the paraphrase lookup
is modelled sequentially: both services are invoked (both stages appear in
the trace) before any branch is taken, and a sensitivity HTTPException
propagates out of the join regardless of the paraphrase result, exactly as
gather does.  transaction_id and question_uuid are taken as parameters
(the source draws them from the transaction context and uuid4). -/
def infer (s : Services) (req : InferRequest) (transaction_id : String) (question_uuid : String) :
    InferOutcome × List Stage :=
  let cleaned_question := _clean_question req.query
  let gather_trace := [Stage.sensitivity_question, Stage.paraphrase]
  match _question_has_sensitive_content s req.user.id cleaned_question with
  | .error e => (.errorResponse e.status_code e.detail, gather_trace)
  | .ok has_sensitive_content =>
    let paraphrase := _get_answer_from_paraphrase s req.course_id cleaned_question
    if has_sensitive_content then
      (.emptyResponse 400, gather_trace)
    else
      match paraphrase with
      | some p =>
        (.answerResponse
            { answer := p.gs_answer_content_str
              question := cleaned_question
              answer_validity := "valid"
              transaction_id := transaction_id
              is_gs_answer := true
              question_uuid := question_uuid },
          gather_trace)
      | none =>
        match _get_prefiltered_documents_from_elasticsearch s req.course_id cleaned_question req.language with
        | .error e => (.errorResponse e.status_code e.detail, gather_trace ++ [Stage.retrieval])
        | .ok none => (.emptyResponse 404, gather_trace ++ [Stage.retrieval])
        | .ok (some prefiltered_doc) =>
          match _get_model_inference_result s req.user.id cleaned_question prefiltered_doc req.language with
          | .error e =>
              (.errorResponse e.status_code e.detail, gather_trace ++ [Stage.retrieval, Stage.inference])
          | .ok model_inference_result =>
            let cleaned_answer := _clean_answer model_inference_result.answer
            if ¬ _check_answer_validity cleaned_answer req.language then
              (.emptyResponse 404, gather_trace ++ [Stage.retrieval, Stage.inference])
            else
              match _answer_has_sensitive_content s req.user.id cleaned_answer with
              | .error e =>
                  (.errorResponse e.status_code e.detail,
                    gather_trace ++ [Stage.retrieval, Stage.inference, Stage.sensitivity_answer])
              | .ok answer_sensitive =>
                if answer_sensitive then
                  (.emptyResponse 400,
                    gather_trace ++ [Stage.retrieval, Stage.inference, Stage.sensitivity_answer])
                else
                  (.answerResponse
                      { answer := cleaned_answer
                        question := cleaned_question
                        answer_validity := "valid"
                        transaction_id := transaction_id
                        is_gs_answer := false
                        question_uuid := question_uuid },
                    gather_trace ++ [Stage.retrieval, Stage.inference, Stage.sensitivity_answer])

/-! Concrete fixtures used by witness theorems. -/

/-- A sensitivity verdict with the given sensitivity string. -/
def scdVerdict (sens : String) : SCDResponse :=
  { sensitivity := sens, model_name := "scd-model" }

/-- A concrete retrieved document. -/
def demoDoc : PrefilteredDoc :=
  { doc_id := "doc-1" }

/-- A concrete request body (query with surrounding whitespace, English). -/
def demoReq : InferRequest :=
  { query := " What is the capital of France? "
    course_id := "course-1"
    user := { id := "user-1" }
    language := Language.EN }

/-- Services for which the question is classified UNSAFE while the
paraphrase lookup simultaneously finds a match. -/
def servicesUnsafeQuestion : Services :=
  { sensitive_content_detection_service := fun _ _ => .ok (scdVerdict "UNSAFE")
    paraphrase_service := fun _ => .ok (some { gs_answer_content_str := "Paris" })
    prefiltering_service := fun _ _ _ => .ok (some demoDoc)
    infer_service := fun _ _ _ _ => .ok { answer := " Paris ", model_context := { model_name := "qa-model" } } }

/-- Services for which the question is SAFE and the paraphrase lookup
returns a gold-standard match whose text has surrounding whitespace. -/
def servicesGoldStandard : Services :=
  { sensitive_content_detection_service := fun _ _ => .ok (scdVerdict "SAFE")
    paraphrase_service := fun _ => .ok (some { gs_answer_content_str := " Paris " })
    prefiltering_service := fun _ _ _ => .ok (some demoDoc)
    infer_service := fun _ _ _ _ => .ok { answer := "Paris", model_context := { model_name := "qa-model" } } }

/-- Services for which the question is SAFE, no paraphrase matches and
retrieval comes back empty. -/
def servicesNoDoc : Services :=
  { sensitive_content_detection_service := fun _ _ => .ok (scdVerdict "SAFE")
    paraphrase_service := fun _ => .ok none
    prefiltering_service := fun _ _ _ => .ok none
    infer_service := fun _ _ _ _ => .ok { answer := "Paris", model_context := { model_name := "qa-model" } } }

/-- Services on the scenario-D path: SAFE question, no paraphrase, a
document retrieved, inference answering the English unknown sentinel. -/
def servicesUnknownAnswer : Services :=
  { sensitive_content_detection_service := fun _ _ => .ok (scdVerdict "SAFE")
    paraphrase_service := fun _ => .ok none
    prefiltering_service := fun _ _ _ => .ok (some demoDoc)
    infer_service := fun _ _ _ _ => .ok { answer := "Unknown.", model_context := { model_name := "qa-model" } } }

/-- Services on the fully successful scenario-E path. -/
def servicesSuccess : Services :=
  { sensitive_content_detection_service := fun _ _ => .ok (scdVerdict "SAFE")
    paraphrase_service := fun _ => .ok none
    prefiltering_service := fun _ _ _ => .ok (some demoDoc)
    infer_service := fun _ _ _ _ =>
      .ok { answer := " The mitochondria is the powerhouse of the cell "
            model_context := { model_name := "qa-model" } } }

/-- Services whose sensitivity service raises on every call. -/
def servicesScdDown : Services :=
  { servicesSuccess with sensitive_content_detection_service := fun _ _ => .error "connection refused" }

/-- Services whose prefiltering service raises. -/
def servicesRetrievalDown : Services :=
  { servicesSuccess with prefiltering_service := fun _ _ _ => .error "es down" }

/-- Services whose inference service raises. -/
def servicesInferDown : Services :=
  { servicesSuccess with infer_service := fun _ _ _ _ => .error "qa down" }

/-- Services whose sensitivity service succeeds on the cleaned question
but raises on any other text, in particular on the cleaned answer. -/
def servicesAnswerScdDown : Services :=
  { servicesSuccess with
    sensitive_content_detection_service := fun q _ =>
      if q == "What is the capital of France?" then .ok (scdVerdict "SAFE") else .error "down" }

/-- Services whose sensitivity service returns a lowercase verdict
string, not the exact token SAFE. -/
def servicesLowercaseSafe : Services :=
  { servicesSuccess with sensitive_content_detection_service := fun _ _ => .ok (scdVerdict "safe") }

/-! Claims. -/

/-- C4 counterexample: the claim asserts that the validator itself returns
false on the input " unknown " for English; in the code the validator
lowercases but does not trim, so " unknown " is not equal to either
sentinel and the validator returns true. -/
theorem C4_counterexample : _check_answer_validity " unknown " Language.EN = true := by
  decide

/-- C4 (amended): the validator rejects, case-insensitively, an untrimmed
answer equal to the English unknown sentinel — "Unknown" and "UNKNOWN."
return false — while " unknown " is rejected only after the cleaning step
the pipeline applies before validation: the validator itself accepts
" unknown ", but returns false on its cleaned form. -/
theorem C4_validator_rejects_unknown_sentinels :
    _check_answer_validity "Unknown" Language.EN = false ∧
    _check_answer_validity "UNKNOWN." Language.EN = false ∧
    _check_answer_validity " unknown " Language.EN = true ∧
    _check_answer_validity (_clean_answer " unknown ") Language.EN = false := by
  decide

/-- C9: the unknown sentinels are language-scoped: for German the
validator rejects "unbekannt", "unbekannt." and "Unbekannt"
(case-insensitively) but accepts "unknown", and for English it accepts
"unbekannt". -/
theorem C9_sentinels_language_scoped :
    _check_answer_validity "unbekannt" Language.DE = false ∧
    _check_answer_validity "unbekannt." Language.DE = false ∧
    _check_answer_validity "Unbekannt" Language.DE = false ∧
    _check_answer_validity "unknown" Language.DE = true ∧
    _check_answer_validity "unbekannt" Language.EN = true := by
  decide

/-- C10: both sensitivity checks report sensitive exactly when the verdict
string returned by the service differs from the exact string SAFE. -/
theorem C10_sensitivity_fail_closed (s : Services) (user_id text : String) (v : SCDResponse)
    (h : s.sensitive_content_detection_service text user_id = Except.ok v) :
    (_question_has_sensitive_content s user_id text = Except.ok true ↔ v.sensitivity ≠ "SAFE") ∧
    (_answer_has_sensitive_content s user_id text = Except.ok true ↔ v.sensitivity ≠ "SAFE") := by
  simp [_question_has_sensitive_content, _answer_has_sensitive_content,
    _run_sensitive_content_detection, h, bne_iff_ne]

/-- C10 witness: a differently-cased verdict "safe" is treated as
sensitive by both checks. -/
theorem C10_sensitivity_fail_closed_witness :
    _question_has_sensitive_content servicesLowercaseSafe "user-1" "hello" = Except.ok true ∧
    _answer_has_sensitive_content servicesLowercaseSafe "user-1" "hello" = Except.ok true := by
  have h := C10_sensitivity_fail_closed servicesLowercaseSafe "user-1" "hello" (scdVerdict "safe") rfl
  exact ⟨h.1.mpr (by decide), h.2.mpr (by decide)⟩

/-- C3: the paraphrase lookup fails open: a paraphrase service that raises
any exception drives the controller to exactly the same outcome and the
same sequence of invoked stages as one that cleanly returns no match, for
every request and every behavior of the other services. -/
theorem C3_paraphrase_fails_open (s : Services) (req : InferRequest)
    (transaction_id question_uuid : String) (e : String) :
    infer { s with paraphrase_service := fun _ => Except.error e } req transaction_id question_uuid =
      infer { s with paraphrase_service := fun _ => Except.ok none } req transaction_id question_uuid := by
  simp [infer, _get_answer_from_paraphrase, _question_has_sensitive_content,
    _run_sensitive_content_detection, _answer_has_sensitive_content,
    _get_prefiltered_documents_from_elasticsearch, _get_model_inference_result]

/-- C1: whenever the sensitivity check classifies the question as unsafe
(any verdict other than SAFE), the outcome is the empty-body 400 response
— even though the paraphrase lookup has also been resolved, its answer
never reaches the response — and neither retrieval nor inference is
invoked. -/
theorem C1_sensitive_question_rejected (s : Services) (req : InferRequest)
    (transaction_id question_uuid : String) (v : SCDResponse)
    (hscd : s.sensitive_content_detection_service (_clean_question req.query) req.user.id =
      Except.ok v)
    (hnotsafe : v.sensitivity ≠ "SAFE") :
    infer s req transaction_id question_uuid =
      (InferOutcome.emptyResponse 400, [Stage.sensitivity_question, Stage.paraphrase]) ∧
    Stage.retrieval ∉ (infer s req transaction_id question_uuid).2 ∧
    Stage.inference ∉ (infer s req transaction_id question_uuid).2 := by
  simp [infer, _question_has_sensitive_content, _run_sensitive_content_detection, hscd,
    bne_iff_ne, hnotsafe]

/-- C1 witness: concrete services whose sensitivity verdict is UNSAFE
while the paraphrase store simultaneously holds a match. -/
theorem C1_sensitive_question_rejected_witness :
    infer servicesUnsafeQuestion demoReq "txn-1" "uuid-1" =
      (InferOutcome.emptyResponse 400, [Stage.sensitivity_question, Stage.paraphrase]) ∧
    Stage.retrieval ∉ (infer servicesUnsafeQuestion demoReq "txn-1" "uuid-1").2 ∧
    Stage.inference ∉ (infer servicesUnsafeQuestion demoReq "txn-1" "uuid-1").2 :=
  C1_sensitive_question_rejected servicesUnsafeQuestion demoReq "txn-1" "uuid-1"
    (scdVerdict "UNSAFE") rfl (by decide)

/-- C2: when the question is classified SAFE and the paraphrase lookup
returns a match, the outcome is the 200 gold-standard response carrying
gs_answer_content_str verbatim with is_gs_answer true, and neither
retrieval nor inference is invoked. -/
theorem C2_gold_standard_hit (s : Services) (req : InferRequest)
    (transaction_id question_uuid : String) (v : SCDResponse) (p : ParaphraseServiceResponse)
    (hscd : s.sensitive_content_detection_service (_clean_question req.query) req.user.id =
      Except.ok v)
    (hsafe : v.sensitivity = "SAFE")
    (hp : s.paraphrase_service
        { question_content_str := _clean_question req.query, course_id := req.course_id } =
      Except.ok (some p)) :
    infer s req transaction_id question_uuid =
      (InferOutcome.answerResponse
        { answer := p.gs_answer_content_str
          question := _clean_question req.query
          answer_validity := "valid"
          transaction_id := transaction_id
          is_gs_answer := true
          question_uuid := question_uuid },
        [Stage.sensitivity_question, Stage.paraphrase]) ∧
    statusOf (infer s req transaction_id question_uuid).1 = 200 ∧
    Stage.retrieval ∉ (infer s req transaction_id question_uuid).2 ∧
    Stage.inference ∉ (infer s req transaction_id question_uuid).2 := by
  simp [infer, statusOf, _question_has_sensitive_content, _run_sensitive_content_detection,
    _get_answer_from_paraphrase, hscd, hsafe, hp]

/-- C2 witness: a gold-standard match whose text carries surrounding
whitespace is returned verbatim, untrimmed. -/
theorem C2_gold_standard_hit_witness :
    infer servicesGoldStandard demoReq "txn-2" "uuid-2" =
      (InferOutcome.answerResponse
        { answer := " Paris "
          question := "What is the capital of France?"
          answer_validity := "valid"
          transaction_id := "txn-2"
          is_gs_answer := true
          question_uuid := "uuid-2" },
        [Stage.sensitivity_question, Stage.paraphrase]) ∧
    statusOf (infer servicesGoldStandard demoReq "txn-2" "uuid-2").1 = 200 ∧
    Stage.retrieval ∉ (infer servicesGoldStandard demoReq "txn-2" "uuid-2").2 ∧
    Stage.inference ∉ (infer servicesGoldStandard demoReq "txn-2" "uuid-2").2 :=
  C2_gold_standard_hit servicesGoldStandard demoReq "txn-2" "uuid-2"
    (scdVerdict "SAFE") { gs_answer_content_str := " Paris " } rfl rfl rfl

/-- C5: fatal downstream failures map to fixed statuses by stage: a
sensitivity-service exception at the question site yields 500; on the
no-paraphrase path a prefiltering exception yields 412; past retrieval an
inference exception yields 400; and past a valid answer a
sensitivity-service exception at the answer site yields 500 — each as an
error response with a short detail string and no answer body. -/
theorem C5_fatal_status_mapping (s : Services) (req : InferRequest)
    (transaction_id question_uuid : String) :
    (∀ e, s.sensitive_content_detection_service (_clean_question req.query) req.user.id =
        Except.error e →
      (infer s req transaction_id question_uuid).1 =
        InferOutcome.errorResponse 500 "Sensitive Content Detection Exception.") ∧
    (∀ v, s.sensitive_content_detection_service (_clean_question req.query) req.user.id =
        Except.ok v →
      v.sensitivity = "SAFE" →
      s.paraphrase_service
          { question_content_str := _clean_question req.query, course_id := req.course_id } =
        Except.ok none →
      (∀ e, s.prefiltering_service (_clean_question req.query) req.language [req.course_id] =
          Except.error e →
        (infer s req transaction_id question_uuid).1 =
          InferOutcome.errorResponse 412 "Failed to fetch prefiltered document from ElasticSearch.") ∧
      (∀ doc, s.prefiltering_service (_clean_question req.query) req.language [req.course_id] =
          Except.ok (some doc) →
        (∀ e, s.infer_service (_clean_question req.query) doc req.user.id req.language =
            Except.error e →
          (infer s req transaction_id question_uuid).1 =
            InferOutcome.errorResponse 400 "QAService Exception") ∧
        (∀ ir, s.infer_service (_clean_question req.query) doc req.user.id req.language =
            Except.ok ir →
          _check_answer_validity (_clean_answer ir.answer) req.language = true →
          ∀ e, s.sensitive_content_detection_service (_clean_answer ir.answer) req.user.id =
              Except.error e →
            (infer s req transaction_id question_uuid).1 =
              InferOutcome.errorResponse 500 "Sensitive Content Detection Exception."))) := by
  constructor
  · intro e he
    simp [infer, _question_has_sensitive_content, _run_sensitive_content_detection, he]
  · intro v hv hsafe hp
    constructor
    · intro e he
      simp [infer, _question_has_sensitive_content, _run_sensitive_content_detection,
        _get_answer_from_paraphrase, _get_prefiltered_documents_from_elasticsearch,
        hv, hsafe, hp, he]
    · intro doc hdoc
      constructor
      · intro e he
        simp [infer, _question_has_sensitive_content, _run_sensitive_content_detection,
          _get_answer_from_paraphrase, _get_prefiltered_documents_from_elasticsearch,
          _get_model_inference_result, hv, hsafe, hp, hdoc, he]
      · intro ir hir hvalid e he
        simp [infer, _question_has_sensitive_content, _run_sensitive_content_detection,
          _get_answer_from_paraphrase, _get_prefiltered_documents_from_elasticsearch,
          _get_model_inference_result, _answer_has_sensitive_content,
          hv, hsafe, hp, hdoc, hir, hvalid, he]

/-- C5 witness: the four fatal scenarios at concrete services, one status
each: question-site sensitivity outage 500, retrieval outage 412,
inference outage 400, answer-site sensitivity outage 500. -/
theorem C5_fatal_status_mapping_witness :
    (infer servicesScdDown demoReq "txn-5" "uuid-5").1 =
      InferOutcome.errorResponse 500 "Sensitive Content Detection Exception." ∧
    (infer servicesRetrievalDown demoReq "txn-5" "uuid-5").1 =
      InferOutcome.errorResponse 412 "Failed to fetch prefiltered document from ElasticSearch." ∧
    (infer servicesInferDown demoReq "txn-5" "uuid-5").1 =
      InferOutcome.errorResponse 400 "QAService Exception" ∧
    (infer servicesAnswerScdDown demoReq "txn-5" "uuid-5").1 =
      InferOutcome.errorResponse 500 "Sensitive Content Detection Exception." := by
  refine ⟨?_, ?_, ?_, ?_⟩
  · exact (C5_fatal_status_mapping servicesScdDown demoReq "txn-5" "uuid-5").1
      "connection refused" rfl
  · exact ((C5_fatal_status_mapping servicesRetrievalDown demoReq "txn-5" "uuid-5").2
      (scdVerdict "SAFE") rfl rfl rfl).1 "es down" rfl
  · exact (((C5_fatal_status_mapping servicesInferDown demoReq "txn-5" "uuid-5").2
      (scdVerdict "SAFE") rfl rfl rfl).2 demoDoc rfl).1 "qa down" rfl
  · exact ((((C5_fatal_status_mapping servicesAnswerScdDown demoReq "txn-5" "uuid-5").2
      (scdVerdict "SAFE") rfl rfl rfl).2 demoDoc rfl).2
      { answer := " The mitochondria is the powerhouse of the cell "
        model_context := { model_name := "qa-model" } }
      rfl (by decide)) "down" rfl

/-- C6: question SAFE, no paraphrase match, retrieval succeeds with an
empty result: the outcome is the empty-body 404 response and inference is
never invoked; had the retrieval service raised instead, the status would
have been 412, so the empty result is distinguished from the fatal
error. -/
theorem C6_empty_retrieval_result (s : Services) (req : InferRequest)
    (transaction_id question_uuid : String) (v : SCDResponse)
    (hscd : s.sensitive_content_detection_service (_clean_question req.query) req.user.id =
      Except.ok v)
    (hsafe : v.sensitivity = "SAFE")
    (hp : s.paraphrase_service
        { question_content_str := _clean_question req.query, course_id := req.course_id } =
      Except.ok none)
    (hr : s.prefiltering_service (_clean_question req.query) req.language [req.course_id] =
      Except.ok none) :
    infer s req transaction_id question_uuid =
      (InferOutcome.emptyResponse 404,
        [Stage.sensitivity_question, Stage.paraphrase, Stage.retrieval]) ∧
    Stage.inference ∉ (infer s req transaction_id question_uuid).2 ∧
    (∀ e, statusOf (infer { s with prefiltering_service := fun _ _ _ => Except.error e }
        req transaction_id question_uuid).1 = 412) := by
  refine ⟨?_, ?_, ?_⟩
  · simp [infer, _question_has_sensitive_content, _run_sensitive_content_detection,
      _get_answer_from_paraphrase, _get_prefiltered_documents_from_elasticsearch,
      hscd, hsafe, hp, hr]
  · simp [infer, _question_has_sensitive_content, _run_sensitive_content_detection,
      _get_answer_from_paraphrase, _get_prefiltered_documents_from_elasticsearch,
      hscd, hsafe, hp, hr]
  · intro e
    simp [infer, statusOf, _question_has_sensitive_content, _run_sensitive_content_detection,
      _get_answer_from_paraphrase, _get_prefiltered_documents_from_elasticsearch,
      hscd, hsafe, hp]

/-- C6 witness: concrete services with a reachable but empty retrieval
result. -/
theorem C6_empty_retrieval_result_witness :
    infer servicesNoDoc demoReq "txn-6" "uuid-6" =
      (InferOutcome.emptyResponse 404,
        [Stage.sensitivity_question, Stage.paraphrase, Stage.retrieval]) ∧
    Stage.inference ∉ (infer servicesNoDoc demoReq "txn-6" "uuid-6").2 ∧
    (∀ e, statusOf (infer { servicesNoDoc with prefiltering_service := fun _ _ _ => Except.error e }
        demoReq "txn-6" "uuid-6").1 = 412) :=
  C6_empty_retrieval_result servicesNoDoc demoReq "txn-6" "uuid-6"
    (scdVerdict "SAFE") rfl rfl rfl rfl

/-- C7: when inference returns an answer whose cleaned (trimmed) form the
validator rejects, the outcome is the empty-body 404 response and the
answer-level sensitivity check is never invoked. -/
theorem C7_invalid_model_answer (s : Services) (req : InferRequest)
    (transaction_id question_uuid : String) (v : SCDResponse) (doc : PrefilteredDoc)
    (ir : InferenceServiceResponse)
    (hscd : s.sensitive_content_detection_service (_clean_question req.query) req.user.id =
      Except.ok v)
    (hsafe : v.sensitivity = "SAFE")
    (hp : s.paraphrase_service
        { question_content_str := _clean_question req.query, course_id := req.course_id } =
      Except.ok none)
    (hr : s.prefiltering_service (_clean_question req.query) req.language [req.course_id] =
      Except.ok (some doc))
    (hinf : s.infer_service (_clean_question req.query) doc req.user.id req.language =
      Except.ok ir)
    (hinvalid : _check_answer_validity (_clean_answer ir.answer) req.language = false) :
    infer s req transaction_id question_uuid =
      (InferOutcome.emptyResponse 404,
        [Stage.sensitivity_question, Stage.paraphrase, Stage.retrieval, Stage.inference]) ∧
    Stage.sensitivity_answer ∉ (infer s req transaction_id question_uuid).2 := by
  simp [infer, _question_has_sensitive_content, _run_sensitive_content_detection,
    _get_answer_from_paraphrase, _get_prefiltered_documents_from_elasticsearch,
    _get_model_inference_result, hscd, hsafe, hp, hr, hinf, hinvalid]

/-- C7 witness: scenario D — inference answers the English sentinel
"Unknown." and the request is English, so the 404 outcome is reached with
no answer-sensitivity call. -/
theorem C7_invalid_model_answer_witness :
    infer servicesUnknownAnswer demoReq "txn-7" "uuid-7" =
      (InferOutcome.emptyResponse 404,
        [Stage.sensitivity_question, Stage.paraphrase, Stage.retrieval, Stage.inference]) ∧
    Stage.sensitivity_answer ∉ (infer servicesUnknownAnswer demoReq "txn-7" "uuid-7").2 :=
  C7_invalid_model_answer servicesUnknownAnswer demoReq "txn-7" "uuid-7"
    (scdVerdict "SAFE") demoDoc
    { answer := "Unknown.", model_context := { model_name := "qa-model" } }
    rfl rfl rfl rfl rfl (by decide)

/-- C8: on the fully successful path (safe question, no paraphrase, a
document retrieved, valid answer, safe answer) the outcome is the 200
model-answer response carrying the trimmed answer, is_gs_answer false, the
cleaned question, the transaction id and the question uuid. -/
theorem C8_model_answer_success (s : Services) (req : InferRequest)
    (transaction_id question_uuid : String) (v : SCDResponse) (doc : PrefilteredDoc)
    (ir : InferenceServiceResponse) (va : SCDResponse)
    (hscd : s.sensitive_content_detection_service (_clean_question req.query) req.user.id =
      Except.ok v)
    (hsafe : v.sensitivity = "SAFE")
    (hp : s.paraphrase_service
        { question_content_str := _clean_question req.query, course_id := req.course_id } =
      Except.ok none)
    (hr : s.prefiltering_service (_clean_question req.query) req.language [req.course_id] =
      Except.ok (some doc))
    (hinf : s.infer_service (_clean_question req.query) doc req.user.id req.language =
      Except.ok ir)
    (hvalid : _check_answer_validity (_clean_answer ir.answer) req.language = true)
    (hscda : s.sensitive_content_detection_service (_clean_answer ir.answer) req.user.id =
      Except.ok va)
    (hvasafe : va.sensitivity = "SAFE") :
    infer s req transaction_id question_uuid =
      (InferOutcome.answerResponse
        { answer := _clean_answer ir.answer
          question := _clean_question req.query
          answer_validity := "valid"
          transaction_id := transaction_id
          is_gs_answer := false
          question_uuid := question_uuid },
        [Stage.sensitivity_question, Stage.paraphrase, Stage.retrieval, Stage.inference,
          Stage.sensitivity_answer]) ∧
    statusOf (infer s req transaction_id question_uuid).1 = 200 := by
  simp [infer, statusOf, _question_has_sensitive_content, _run_sensitive_content_detection,
    _get_answer_from_paraphrase, _get_prefiltered_documents_from_elasticsearch,
    _get_model_inference_result, _answer_has_sensitive_content,
    hscd, hsafe, hp, hr, hinf, hvalid, hscda, hvasafe]

/-- C8 witness: scenario E — the padded model answer comes back trimmed
with is_gs_answer false and HTTP 200. -/
theorem C8_model_answer_success_witness :
    infer servicesSuccess demoReq "txn-8" "uuid-8" =
      (InferOutcome.answerResponse
        { answer := "The mitochondria is the powerhouse of the cell"
          question := "What is the capital of France?"
          answer_validity := "valid"
          transaction_id := "txn-8"
          is_gs_answer := false
          question_uuid := "uuid-8" },
        [Stage.sensitivity_question, Stage.paraphrase, Stage.retrieval, Stage.inference,
          Stage.sensitivity_answer]) ∧
    statusOf (infer servicesSuccess demoReq "txn-8" "uuid-8").1 = 200 :=
  C8_model_answer_success servicesSuccess demoReq "txn-8" "uuid-8"
    (scdVerdict "SAFE") demoDoc
    { answer := " The mitochondria is the powerhouse of the cell "
      model_context := { model_name := "qa-model" } }
    (scdVerdict "SAFE") rfl rfl rfl rfl rfl (by decide) rfl rfl

end CodingChallengeQA
